import Mathlib

/-
Verification of the Hikyaku transfer core: a shallow embedding of the
file-system object model, the chunked download and upload pipelines, the
Google Drive depth-walking path resolver, the URI parser and the builder,
translated from the Rust sources under src/.  Network and disk I/O is
modelled by explicit oracle records (one field per kind of external call);
Rust panics (remainder by zero, out-of-bounds slice, the todo macro) are
modelled by an explicit panicked outcome.
-/

namespace Hikyaku

/-- Error enumeration, translated from src/errors.rs (HikyakuError). -/
inductive HikyakuError where
  | OAuth2Error (msg : String)
  | GoogleDriveError (msg : String)
  | S3Error (msg : String)
  | ParseError (msg : String)
  | BuilderError (msg : String)
  | InvalidArgumentError (msg : String)
  | EnvCredentialError (msg : String)
  | ConnectionError (msg : String)
  | NotExistFileError (msg : String)
  | FileOperationError (msg : String)
  | UnsupportedError (msg : String)
  | UnknownError (msg : String)
  deriving DecidableEq, Repr

/-- Outcome of running a fallible Rust function: an Ok value, a returned
HikyakuError, or a Rust panic (division by zero, slice out of range,
the todo macro, and so on). -/
inductive RunResult (α : Type) where
  | ok (a : α)
  | err (e : HikyakuError)
  | panicked (msg : String)
  deriving DecidableEq, Repr

/-- ChunkData from src/services/file_system/mod.rs: the bytes of one chunk,
its zero-based offset index and the last-chunk flag.  Byte values are
modelled as Nat. -/
structure ChunkData where
  data : List Nat
  offset : Nat
  is_last : Bool
  deriving DecidableEq, Repr

/-- FileSystemObject from src/services/file_system/mod.rs.  Client pools are
modelled by their length (the clients are opaque SDK handles); the mutable
slots living behind Arc Mutex (local file handle, Drive resumable URL) are
modelled separately by UploadState. -/
inductive FileSystemObject where
  | amazonS3 (clientsLen : Nat) (bucket : String) (key : String)
      (file_size : Option Nat) (chunk_size : Nat)
  | googleDrive (clientsLen : Nat) (queryable_file_or_parent_id : String)
      (not_exist_file_paths : List String) (upload_filename : Option String)
      (mime_type : String) (file_size : Option Nat) (chunk_size : Nat)
  | localFile (path : String) (is_dir : Bool) (file_size : Option Nat)
      (concurrency : Nat) (chunk_size : Nat)
  deriving DecidableEq, Repr

/-- is_downloadable from src/services/file_system/mod.rs lines 44-55:
true exactly when file_size is Some. -/
def FileSystemObject.is_downloadable : FileSystemObject → Bool
  | .amazonS3 _ _ _ file_size _ => file_size.isSome
  | .googleDrive _ _ _ _ _ file_size _ => file_size.isSome
  | .localFile _ _ file_size _ _ => file_size.isSome

/-- chunk_size accessor, src/services/file_system/mod.rs lines 57-65. -/
def FileSystemObject.chunk_size : FileSystemObject → Nat
  | .amazonS3 _ _ _ _ chunk_size => chunk_size
  | .googleDrive _ _ _ _ _ _ chunk_size => chunk_size
  | .localFile _ _ _ _ chunk_size => chunk_size

/-- concurrency accessor, src/services/file_system/mod.rs lines 67-73:
the client pool length for remote backends, the stored field for Local. -/
def FileSystemObject.concurrency : FileSystemObject → Nat
  | .amazonS3 clientsLen _ _ _ _ => clientsLen
  | .googleDrive clientsLen _ _ _ _ _ _ => clientsLen
  | .localFile _ _ _ concurrency _ => concurrency

/-- file_size accessor, src/services/file_system/mod.rs lines 75-81. -/
def FileSystemObject.file_size : FileSystemObject → Option Nat
  | .amazonS3 _ _ _ file_size _ => file_size
  | .googleDrive _ _ _ _ _ file_size _ => file_size
  | .localFile _ _ file_size _ _ => file_size

/-- set_chunk_size from src/services/file_system/mod.rs lines 83-91: assigns
the given size to the chunk_size field unconditionally. -/
def set_chunk_size : FileSystemObject → Nat → FileSystemObject
  | .amazonS3 a b c d _, size => .amazonS3 a b c d size
  | .googleDrive a b c d e f _, size => .googleDrive a b c d e f size
  | .localFile a b c d _, size => .localFile a b c d size

/-- True exactly for the Local variant of FileSystemObject. -/
def is_local_variant : FileSystemObject → Bool
  | .localFile _ _ _ _ _ => true
  | _ => false

/- ---------------------------------------------------------------------
Download pipeline, src/services/file_system/download.rs.
--------------------------------------------------------------------- -/

/-- Client selection of the remote partial_download arms
(src/services/file_system/download.rs lines 62 and 102): the source indexes
clients with (concurrency as u64 % offset) as usize.  The Rust remainder
panics when offset = 0, and indexing panics when the computed index reaches
the pool length (which happens whenever offset > concurrency, since then
concurrency % offset = concurrency = clients.len()). -/
def remote_client_pick (clientsLen offset : Nat) : RunResult Nat :=
  if offset = 0 then
    .panicked "attempt to calculate the remainder with a divisor of zero"
  else
    let idx := clientsLen % offset
    if idx < clientsLen then .ok idx
    else .panicked "index out of bounds"

/-- start of chunk number offset, download.rs line 51. -/
def chunk_start (chunk_size offset : Nat) : Nat := offset * chunk_size

/-- inclusive end of chunk number offset, download.rs line 52
(truncated Nat subtraction matches u64 here because chunk_size and
file_size are nonzero on every path that reaches this computation). -/
def chunk_end (chunk_size file_size offset : Nat) : Nat :=
  min ((offset + 1) * chunk_size - 1) (file_size - 1)

/-- last-chunk flag, download.rs line 53. -/
def chunk_is_last (chunk_size file_size offset : Nat) : Bool :=
  chunk_end chunk_size file_size offset == file_size - 1

/-- The Local arm of partial_download, download.rs lines 144-186, for a file
whose on-disk bytes are content.  The source sizes the read buffer as
min(chunk_size, end - start), seeks to start, reads exactly that many bytes
(read_exact fails when the file is shorter), and on the last chunk slices
the buffer to end - start + 1 bytes, which panics when the buffer is
shorter than that. -/
def local_partial_download (content : List Nat) (chunk_size file_size offset : Nat) :
    RunResult ChunkData :=
  let start := chunk_start chunk_size offset
  let endPos := chunk_end chunk_size file_size offset
  let is_last := chunk_is_last chunk_size file_size offset
  let part_size := min chunk_size (endPos - start)
  if content.length < start + part_size then
    .err (.FileOperationError "Failed to read file")
  else
    let buf := (content.drop start).take part_size
    if endPos = file_size - 1 then
      if buf.length < endPos - start + 1 then
        .panicked "range end index out of range for slice"
      else
        .ok ⟨buf.take (endPos - start + 1), offset, is_last⟩
    else
      .ok ⟨buf, offset, is_last⟩

/-- The public download entry point, download.rs lines 21-43.  It fails
NotExistFileError when the object is not downloadable, computes the chunk
count (file_size + chunk_size - 1) / chunk_size (a Rust division panic when
chunk_size = 0), spawns one task per chunk and pushes the join handles into
a vector that is dropped when the function returns Ok.  The taskResults
argument gives the outcome of each spawned chunk task; the source never
awaits the handles, so the returned value cannot depend on it.  The second
component is the list of chunk indices for which a task was spawned. -/
def download (fso : FileSystemObject) (taskResults : Nat → RunResult Unit) :
    RunResult Unit × List Nat :=
  if fso.is_downloadable = false then
    (.err (.NotExistFileError "File system object is not downloadable."), [])
  else if fso.chunk_size = 0 then
    (.panicked "attempt to divide by zero", [])
  else
    let n := fso.file_size.getD 0
    let last_offset := (n + fso.chunk_size - 1) / fso.chunk_size
    (.ok (), List.range last_offset)

/- ---------------------------------------------------------------------
Upload pipeline, src/services/file_system/upload.rs.
--------------------------------------------------------------------- -/

/-- Observable side effects of the upload path: log lines, local file
operations, and the Google Drive HTTP calls.  No constructor exists for an
S3 request because the S3 arm of partial_upload issues none. -/
inductive Effect where
  | warnLog (msg : String)
  | errorLog (msg : String)
  | createFile (path : String)
  | seekTo (pos : Nat)
  | writeBytes (len : Nat)
  | driveCreateDir (name : String) (parent : Option String)
  | driveResumableInit (filename : String) (parent : String)
  deriving DecidableEq, Repr

/-- The per-object mutable slots that live behind Arc Mutex in the source:
the lazily opened local file handle (upload.rs lines 144-151, download.rs
lines 149-158) and the Drive resumable upload URL (upload.rs lines 71-133). -/
structure UploadState where
  localFile : Option Unit
  resumableUrl : Option String
  deriving DecidableEq, Repr

/-- Oracle for the external world consumed by partial_upload: whether the
local create, seek and write calls succeed, and the responses of the Drive
folder-create and resumable-init HTTP requests (an Except folding the
response status, header and parse handling of upload.rs lines 104-130 and
186-209 into the produced id or URL, or the constructed error). -/
structure UploadIO where
  createFileOk : Bool
  seekOk : Bool
  writeOk : Bool
  createDir : String → Option String → Except HikyakuError String
  resumableInit : String → String → Except HikyakuError String

/-- The folder-creation loop of the Drive arm, upload.rs lines 81-84:
create each missing directory in order, threading the returned id as the
parent of the next; any failure is returned as is. -/
def create_dirs (io : UploadIO) : List String → Option String →
    RunResult (Option String) × List Effect
  | [], parent => (.ok parent, [])
  | d :: rest, parent =>
    match io.createDir d parent with
    | .error e => (.err e, [.driveCreateDir d parent])
    | .ok id =>
      let (r, effs) := create_dirs io rest (some id)
      (r, .driveCreateDir d parent :: effs)

/-- The Local write arm of partial_upload, upload.rs lines 138-168:
compute start = offset * chunk_size, lazily create the destination file on
first chunk, seek to start and write the chunk bytes.  Failures map to
FileOperationError. -/
def local_write (path : String) (chunk_size : Nat) (chunk : ChunkData)
    (st : UploadState) (io : UploadIO) :
    RunResult Unit × UploadState × List Effect :=
  let start := chunk.offset * chunk_size
  if st.localFile.isNone && !io.createFileOk then
    (.err (.FileOperationError ("Failed to create file to " ++ path)), st, [.createFile path])
  else
    let effs := if st.localFile.isNone then [Effect.createFile path] else []
    let st1 : UploadState := { st with localFile := some () }
    if !io.seekOk then
      (.err (.FileOperationError "Failed to seek file"), st1, effs ++ [.seekTo start])
    else if !io.writeOk then
      (.err (.FileOperationError "Failed to write file"), st1,
        effs ++ [.seekTo start, .writeBytes chunk.data.length])
    else
      (.ok (), st1, effs ++ [.seekTo start, .writeBytes chunk.data.length])

/-- The Google Drive write arm of partial_upload, upload.rs lines 55-137:
refuse when no upload filename is set; on the first chunk create the
missing folders and initiate the resumable session, storing the returned
Location URL in the shared slot.  The source computes the byte range of the
chunk but never issues a chunk PUT, so the chunk bytes are not written. -/
def gdrive_write (chunk_size : Nat) (queryable_file_or_parent_id : String)
    (not_exist_file_paths : List String) (upload_filename : Option String)
    (chunk : ChunkData) (st : UploadState) (io : UploadIO) :
    RunResult Unit × UploadState × List Effect :=
  match upload_filename with
  | none => (.err (.InvalidArgumentError "The upload filename is not specified"), st, [])
  | some filename =>
    let _start := chunk.offset * chunk_size
    match st.resumableUrl with
    | some _ => (.ok (), st, [])
    | none =>
      let (pres, effs1) :=
        if not_exist_file_paths.isEmpty then
          (RunResult.ok queryable_file_or_parent_id, ([] : List Effect))
        else
          let parent0 : Option String :=
            if queryable_file_or_parent_id.isEmpty then none
            else some queryable_file_or_parent_id
          match create_dirs io not_exist_file_paths parent0 with
          | (.ok p, effs) => (.ok (p.getD ""), effs)
          | (.err e, effs) => (.err e, effs)
          | (.panicked m, effs) => (.panicked m, effs)
      match pres with
      | .ok parent_dir_id =>
        match io.resumableInit filename parent_dir_id with
        | .error e => (.err e, st, effs1 ++ [.driveResumableInit filename parent_dir_id])
        | .ok url =>
          (.ok (), { st with resumableUrl := some url },
            effs1 ++ [.driveResumableInit filename parent_dir_id])
      | .err e => (.err e, st, effs1)
      | .panicked m => (.panicked m, st, effs1)

/-- The backend dispatch of partial_upload, upload.rs lines 48-169.  The S3
arm (lines 49-54) binds the clients, bucket and key and returns Ok without
issuing any request. -/
def backend_write (fso : FileSystemObject) (chunk : ChunkData)
    (st : UploadState) (io : UploadIO) :
    RunResult Unit × UploadState × List Effect :=
  match fso with
  | .amazonS3 _ _ _ _ _ => (.ok (), st, [])
  | .googleDrive _ qid ne uf _ _ c => gdrive_write c qid ne uf chunk st io
  | .localFile path _ _ _ c => local_write path c chunk st io

/-- partial_upload, upload.rs lines 29-170: the chunk-length precheck
(line 30), then the overwrite policy (lines 35-46: warn for S3 and Drive,
InvalidArgumentError for Local when the destination already exists), then
the backend write. -/
def partial_upload (fso : FileSystemObject) (chunk : ChunkData)
    (st : UploadState) (io : UploadIO) :
    RunResult Unit × UploadState × List Effect :=
  if chunk.is_last = false ∧ fso.chunk_size ≠ chunk.data.length then
    (.err (.UnknownError "The chunk size is not equal to the length of the chunk data"), st, [])
  else if fso.is_downloadable then
    match fso with
    | .localFile _ _ _ _ _ =>
      (.err (.InvalidArgumentError "The same name file is already exist. Please rename it."), st,
        [.errorLog "The same name file is already exist. Please rename it."])
    | _ =>
      let (r, st2, effs) := backend_write fso chunk st io
      (r, st2, .warnLog "The same name file is already exist. Please caution." :: effs)
  else
    backend_write fso chunk st io

/-- The public upload entry point, upload.rs lines 21-26: its body is the
todo macro, which panics unconditionally with the message below.  received
is the queue of chunks waiting on the receiver; the returned triple gives
the outcome, the chunks actually consumed and the effects issued. -/
def upload (fso : FileSystemObject) (received : List ChunkData) :
    RunResult Unit × List ChunkData × List Effect :=
  (.panicked "not yet implemented", [], [])

/- ---------------------------------------------------------------------
Builder, src/services/file_system_builder/mod.rs.
--------------------------------------------------------------------- -/

/-- Default chunk size set by FileSystemBuilder::new, builder mod.rs
line 59. -/
def default_chunk_size : Nat := 8 * 1024 * 1024

/-- The chunk_size builder setter, builder mod.rs lines 127-134: a request
of 0 is ignored with a warning, any other request replaces the current
value. -/
def builder_set_chunk_size (current req : Nat) : Nat × List Effect :=
  if req = 0 then
    (current, [.warnLog "Chunk size specified as 0. This will be ignored."])
  else
    (req, [])

/- ---------------------------------------------------------------------
Google Drive depth-walking resolver,
src/services/file_system_builder/google_drive.rs.
--------------------------------------------------------------------- -/

/-- GoogleDriveFile from src/types/google_drive.rs: id, mime type and
optional size. -/
structure GoogleDriveFile where
  id : String
  mime : String
  size : Option Nat
  deriving DecidableEq, Repr

/-- GoogleDriveFile::new. -/
def GoogleDriveFile.new (id mime : String) (size : Option Nat) : GoogleDriveFile :=
  ⟨id, mime, size⟩

/-- initial_parents from google_drive.rs lines 302-307: the parent ids as
synthetic file records with empty mime and no size. -/
def initial_parents (drives : List String) : List GoogleDriveFile :=
  drives.map (fun id => GoogleDriveFile.new id "" none)

/-- Oracle for query_drive_files (google_drive.rs lines 321-365): given a
segment name and the current parent candidates, the Drive response as the
list of matching files, or the error the source constructs from a failed
request, a bad status or an invalid size. -/
abbrev DriveQuery := String → List GoogleDriveFile → Except HikyakuError (List GoogleDriveFile)

/-- The exploration loop of resolve_path_to_existing_depth, google_drive.rs
lines 221-229: walk the segments in order, replacing the candidate set with
each non-empty response and counting the explored segments; stop at the
first empty response.  Returns the final candidate set and the explored
counter. -/
def explore_path (q : DriveQuery) (parents : List GoogleDriveFile) :
    List String → Nat → Except HikyakuError (List GoogleDriveFile × Nat)
  | [], k => .ok (parents, k)
  | name :: rest, k =>
    match q name parents with
    | .error e => .error e
    | .ok resp =>
      if resp.isEmpty then .ok (parents, k)
      else explore_path q resp rest (k + 1)

/-- resolve_path_to_existing_depth, google_drive.rs lines 210-250.
path_names stands for the segment list returned by path_to_names_vec on
path (google_drive.rs line 215); path itself is kept for the error
message.  After the loop, two or more remaining candidates fail
InvalidArgumentError; otherwise the anchor is the first remaining
candidate (if any) and the residual is the list of unexplored segments. -/
def resolve_path_to_existing_depth (q : DriveQuery) (parent_ids : List String)
    (path : String) (path_names : List String) :
    Except HikyakuError (Option GoogleDriveFile × List String) :=
  match explore_path q (initial_parents parent_ids) path_names 0 with
  | .error e => .error e
  | .ok (parents, k) =>
    if 2 ≤ parents.length then
      .error (.InvalidArgumentError
        ("File path " ++ path ++
          " is ambiguous. There is multiple candidate on the same depth of the path in Google Drive."))
    else
      .ok (parents.head?, path_names.drop k)

/- ---------------------------------------------------------------------
URI parser, src/utils/parser.rs (file_system_prefix_parser).
--------------------------------------------------------------------- -/

/-- Parse result from src/utils/parser.rs lines 12-16.  The source names
the first field prefix; it holds the recognized scheme marker such as
file:// or gd://. -/
structure FileSystemParseResult where
  scheme : String
  ns : Option String
  path : String
  deriving DecidableEq, Repr

/-- True when the character list starts with the given pattern. -/
def list_begins_with : List Char → List Char → Bool
  | [], _ => true
  | _ :: _, [] => false
  | p :: ps, c :: cs => p = c && list_begins_with ps cs

/-- True when the character list contains two consecutive slashes
(the contains("//") checks of parser.rs lines 105 and 121). -/
def has_double_slash : List Char → Bool
  | '/' :: '/' :: _ => true
  | _ :: rest => has_double_slash rest
  | [] => false

/-- Drop the leading run of slashes. -/
def drop_leading_slashes (cs : List Char) : List Char :=
  cs.dropWhile (fun c => c = '/')

/-- Drop the trailing run of slashes. -/
def drop_trailing_slashes (cs : List Char) : List Char :=
  (cs.reverse.dropWhile (fun c => c = '/')).reverse

/-- The file:// and gd:// branch of file_system_prefix_parser, parser.rs
lines 120-151: reject a remainder containing two chained slashes; keep a
remainder that is empty or exactly one slash unchanged; otherwise apply the
greedy regex that strips the leading and trailing slash runs. -/
def parse_no_ns (input scheme : String) (path : List Char) :
    Except HikyakuError FileSystemParseResult :=
  if has_double_slash path then
    .error (.InvalidArgumentError
      ("Invalid Path: " ++ input ++
        " is invalid path. To avoid ambiguous process, // or more chain slash cannot use."))
  else
    let p := if path = [] ∨ path = ['/'] then path
             else drop_trailing_slashes (drop_leading_slashes path)
    .ok ⟨scheme, none, String.mk p⟩

/-- The s3:// and gds:// branch of file_system_prefix_parser, parser.rs
lines 81-119: the namespace regex strips the leading slash run, captures
the first slash-free run as the namespace (failing when it is empty), eats
one following slash, and captures the rest minus its trailing slash run as
the path; a path still containing // or starting with a slash is refused. -/
def parse_with_ns (input scheme : String) (path : List Char) :
    Except HikyakuError FileSystemParseResult :=
  let cs := drop_leading_slashes path
  let nsChars := cs.takeWhile (fun c => c ≠ '/')
  if nsChars = [] then
    .error (.InvalidArgumentError
      ("Invalid Path: " ++ input ++ " is invalid path. s3:// and gds:// must have namespace"))
  else
    let rest :=
      match cs.dropWhile (fun c => c ≠ '/') with
      | '/' :: r => r
      | r => r
    let p := drop_trailing_slashes rest
    let startsWithSlash : Bool :=
      match p with
      | '/' :: _ => true
      | _ => false
    if has_double_slash p || startsWithSlash then
      .error (.InvalidArgumentError
        ("Invalid Path: " ++ input ++
          " is invalid path. To avoid ambiguous process, // or more chain slash cannot use."))
    else
      .ok ⟨scheme, some (String.mk nsChars), String.mk p⟩

/-- file_system_prefix_parser, parser.rs lines 53-152: recognize the
prefixes in the source order (file://, s3://, gd://, gds://), split off the
remainder, and dispatch to the namespace or no-namespace branch. -/
def parse_file_system_uri (input : String) : Except HikyakuError FileSystemParseResult :=
  let cs := input.toList
  if list_begins_with "file://".toList cs then
    parse_no_ns input "file://" (cs.drop 7)
  else if list_begins_with "s3://".toList cs then
    parse_with_ns input "s3://" (cs.drop 5)
  else if list_begins_with "gd://".toList cs then
    parse_no_ns input "gd://" (cs.drop 5)
  else if list_begins_with "gds://".toList cs then
    parse_with_ns input "gds://" (cs.drop 6)
  else
    .error (.InvalidArgumentError
      ("Invalid Path: " ++ input ++
        " is invalid prefix. Support only file://, s3://, gd://, gds://"))

/- ---------------------------------------------------------------------
Support definitions used by the statements below.
--------------------------------------------------------------------- -/

/-- Decidable equality for Except values, needed to evaluate the parser and
resolver results in closed statements. -/
instance {ε α : Type} [DecidableEq ε] [DecidableEq α] : DecidableEq (Except ε α) := fun a b =>
  match a, b with
  | .ok x, .ok y =>
    if h : x = y then .isTrue (by rw [h]) else .isFalse (by simp [h])
  | .error x, .error y =>
    if h : x = y then .isTrue (by rw [h]) else .isFalse (by simp [h])
  | .ok _, .error _ => .isFalse (by simp)
  | .error _, .ok _ => .isFalse (by simp)

/-- Oracle where every local file operation succeeds and every Drive call
returns a fixed id or URL. -/
def io_trivial : UploadIO :=
  ⟨true, true, true, fun _ _ => .ok "dirid", fun _ _ => .ok "resumable-url"⟩

/-- Fresh per-object mutable state: no file handle, no resumable URL. -/
def st0 : UploadState := ⟨none, none⟩

/-- Drive query oracle whose every response is empty. -/
def qEmpty : DriveQuery := fun _ _ => .ok []

/-- True when a run outcome is an InvalidArgumentError return. -/
def is_invalid_argument_result : RunResult Unit → Bool
  | .err (.InvalidArgumentError _) => true
  | _ => false

/- ---------------------------------------------------------------------
Theorems.
--------------------------------------------------------------------- -/

/-- Helper: a list holding two different elements has length at least 2. -/
theorem length_ge_two_of_mem_ne {α : Type} {l : List α} {a b : α}
    (ha : a ∈ l) (hb : b ∈ l) (hne : a ≠ b) : 2 ≤ l.length := by
  match l with
  | [] => cases ha
  | [x] =>
    simp only [List.mem_singleton] at ha hb
    exact absurd (ha.trans hb.symm) hne
  | _ :: _ :: _ => simp only [List.length_cons]; omega

/-- Helper: an object whose file_size is Some is downloadable. -/
theorem is_downloadable_of_file_size {fso : FileSystemObject} {n : Nat}
    (hs : fso.file_size = some n) : fso.is_downloadable = true := by
  cases fso <;>
    simp only [FileSystemObject.file_size] at hs <;>
    simp [FileSystemObject.is_downloadable, hs]

/-- C1: the download task for chunk index i is claimed to select the client
at index i mod concurrency.  The source (download.rs lines 62 and 102)
instead computes concurrency % i: with a pool of 4 clients it panics on the
remainder by zero at i = 0, and at i = 3 it picks client 1 where the claim
requires 3 mod 4 = 3; for a 10-byte file with chunk_size 4 both indices lie
in [0, ceil(10 / 4)) = [0, 3). -/
theorem remote_client_pick_diverges_from_claim :
    remote_client_pick 4 0 = .panicked "attempt to calculate the remainder with a divisor of zero"
    ∧ remote_client_pick 4 3 = .ok 1
    ∧ 3 % 4 = 3
    ∧ (1 : Nat) ≠ 3
    ∧ (10 + 4 - 1) / 4 = 3 := by
  decide

/-- C2: for a Local source the chunk read is claimed to fetch exactly
end - start + 1 bytes, so every non-last chunk carries chunk_size bytes.
The source (download.rs line 162) sizes the buffer min(chunk_size,
end - start): on a 10-byte file with chunk_size 4, chunk 0 spans bytes 0-3
(length 4) but only 3 bytes are read and emitted with is_last false, and
the last chunk (i = 2) panics slicing 2 bytes from a 1-byte buffer. -/
theorem local_partial_download_short_read :
    local_partial_download (List.replicate 10 0) 4 10 0 =
      .ok ⟨List.replicate 3 0, 0, false⟩
    ∧ (List.replicate 3 (0 : Nat)).length ≠ 4
    ∧ chunk_end 4 10 0 - chunk_start 4 0 + 1 = 4
    ∧ local_partial_download (List.replicate 10 0) 4 10 2 =
      .panicked "range end index out of range for slice" := by
  decide

/-- C3: uploading a chunk to an S3 destination is claimed to drive the S3
multipart protocol (CreateMultipartUpload, UploadPart, ETag bookkeeping,
CompleteMultipartUpload).  The S3 arm of partial_upload (upload.rs lines
49-54) returns Ok without issuing any request: even for a lone final chunk
the run succeeds with an empty effect list and unchanged state. -/
theorem s3_partial_upload_issues_no_requests :
    partial_upload (.amazonS3 4 "bkt" "key" none 1) ⟨[0], 0, true⟩ st0 io_trivial =
      (.ok (), st0, []) := by
  decide

/-- C4: whenever the depth walk completes and two or more distinct files
remain as candidates at the deepest resolved depth, resolution fails with
the InvalidArgumentError describing an ambiguous path, and no result pair
is produced. -/
theorem resolve_ambiguous_depth_fails (q : DriveQuery) (P : List String)
    (path : String) (names : List String) (parents : List GoogleDriveFile)
    (k : Nat) (a b : GoogleDriveFile)
    (hloop : explore_path q (initial_parents P) names 0 = .ok (parents, k))
    (ha : a ∈ parents) (hb : b ∈ parents) (hne : a ≠ b) :
    resolve_path_to_existing_depth q P path names =
      .error (.InvalidArgumentError
        ("File path " ++ path ++
          " is ambiguous. There is multiple candidate on the same depth of the path in Google Drive.")) := by
  have hlen : 2 ≤ parents.length := length_ge_two_of_mem_ne ha hb hne
  unfold resolve_path_to_existing_depth
  rw [hloop]
  simp [hlen]

/-- C4 witness: two initial parents and an empty path leave two distinct
candidates at depth 0, so resolution fails as the theorem states. -/
theorem resolve_ambiguous_depth_fails_witness :
    explore_path qEmpty (initial_parents ["a", "b"]) [] 0 =
      .ok (initial_parents ["a", "b"], 0)
    ∧ resolve_path_to_existing_depth qEmpty ["a", "b"] "x" [] =
      .error (.InvalidArgumentError
        ("File path " ++ "x" ++
          " is ambiguous. There is multiple candidate on the same depth of the path in Google Drive.")) :=
  ⟨rfl,
    resolve_ambiguous_depth_fails qEmpty ["a", "b"] "x" []
      (initial_parents ["a", "b"]) 0
      (GoogleDriveFile.new "a" "" none) (GoogleDriveFile.new "b" "" none)
      rfl (by decide) (by decide) (by decide)⟩

/-- C5 counterexample: with the single parent id X and the path segment a
missing from Drive (every query response empty), the first segment already
misses (k = 0), yet the resolver returns the initial parent as anchor, not
none as the claim states. -/
theorem resolve_anchor_counterexample :
    resolve_path_to_existing_depth qEmpty ["X"] "a" ["a"] =
      .ok (some (GoogleDriveFile.new "X" "" none), ["a"])
    ∧ some (GoogleDriveFile.new "X" "" none) ≠ (none : Option GoogleDriveFile) := by
  decide

/-- C5 amended: if the depth walk resolves exactly the first k segments
ending with candidate set parents, and at most one candidate remains, the
resolver returns residual = the segments after the first k, in order, and
anchor = the head of the remaining candidate set: the matched entry when
k is at least 1, the sole initial parent when k = 0 over a one-element
parent set, and none when the candidate set is empty (k = 0 over an empty
parent set). -/
theorem resolve_residual_and_anchor (q : DriveQuery) (P : List String)
    (path : String) (names : List String) (parents : List GoogleDriveFile) (k : Nat)
    (hloop : explore_path q (initial_parents P) names 0 = .ok (parents, k))
    (hlen : parents.length ≤ 1) :
    resolve_path_to_existing_depth q P path names = .ok (parents.head?, names.drop k) := by
  unfold resolve_path_to_existing_depth
  rw [hloop]
  have : ¬ 2 ≤ parents.length := by omega
  simp [this]

/-- C5 witness: over an empty parent set with the sole segment missing, the
walk explores nothing and the resolver returns no anchor and the full
segment list as residual. -/
theorem resolve_residual_and_anchor_witness :
    explore_path qEmpty (initial_parents []) ["a"] 0 = .ok ([], 0)
    ∧ resolve_path_to_existing_depth qEmpty [] "a" ["a"] = .ok (none, ["a"]) :=
  ⟨rfl, resolve_residual_and_anchor qEmpty [] "a" ["a"] [] 0 rfl (by decide)⟩

/-- C6 counterexample: the input file:/// has remainder exactly /, and the
parser succeeds but keeps the path field as /, not the empty string the
claim requires. -/
theorem parser_keeps_slash_counterexample :
    parse_file_system_uri "file:///" = .ok ⟨"file://", none, "/"⟩
    ∧ ("/" : String) ≠ "" := by
  decide

/-- C6 amended: for a remainder that is empty the parser succeeds with the
empty path, and for a remainder of exactly / it succeeds with the path kept
as / (parser.rs lines 133-135 return such a remainder unchanged instead of
normalizing it to the empty string). -/
theorem parser_root_edge_cases :
    parse_file_system_uri "file://" = .ok ⟨"file://", none, ""⟩
    ∧ parse_file_system_uri "gd://" = .ok ⟨"gd://", none, ""⟩
    ∧ parse_file_system_uri "file:///" = .ok ⟨"file://", none, "/"⟩
    ∧ parse_file_system_uri "gd:///" = .ok ⟨"gd://", none, "/"⟩ := by
  decide

/-- C7 counterexample: a chunk that fails the uniform length precheck
(is_last false and 0 bytes against chunk_size 1), sent to a Local
destination that already exists (file_size Some), is rejected with
UnknownError by upload.rs line 30 before the overwrite policy runs, not
with the InvalidArgumentError the claim states. -/
theorem upload_precheck_counterexample :
    partial_upload (.localFile "p" false (some 5) 1 1) ⟨[], 0, false⟩ st0 io_trivial =
      (.err (.UnknownError "The chunk size is not equal to the length of the chunk data"), st0, [])
    ∧ is_invalid_argument_result
        (partial_upload (.localFile "p" false (some 5) 1 1) ⟨[], 0, false⟩ st0 io_trivial).1
      = false := by
  decide

/-- C7 amended: for a chunk that passes the length precheck (is_last, or
exactly chunk_size bytes), uploading to a destination whose file_size is
Some makes a Local destination fail with InvalidArgumentError before any
file is opened (the only effect is the error log), while S3 and Google
Drive destinations emit exactly a warning and proceed with the backend
write. -/
theorem overwrite_policy_after_precheck (fso : FileSystemObject)
    (chunk : ChunkData) (st : UploadState) (io : UploadIO)
    (hdl : fso.is_downloadable = true)
    (hpre : chunk.is_last = true ∨ fso.chunk_size = chunk.data.length) :
    (is_local_variant fso = true →
      partial_upload fso chunk st io =
        (.err (.InvalidArgumentError "The same name file is already exist. Please rename it."), st,
          [.errorLog "The same name file is already exist. Please rename it."]))
    ∧ (is_local_variant fso = false →
      partial_upload fso chunk st io =
        ((backend_write fso chunk st io).1, (backend_write fso chunk st io).2.1,
          .warnLog "The same name file is already exist. Please caution." ::
            (backend_write fso chunk st io).2.2)) := by
  have hcond : ¬ (chunk.is_last = false ∧ fso.chunk_size ≠ chunk.data.length) := by
    rcases hpre with h | h <;> simp [h]
  constructor
  · intro hloc
    cases fso with
    | localFile path d fs conc c =>
      simp [partial_upload, hcond, hdl]
    | amazonS3 a b c d e => simp [is_local_variant] at hloc
    | googleDrive a b c d e f g => simp [is_local_variant] at hloc
  · intro hloc
    cases fso with
    | localFile path d fs conc c => simp [is_local_variant] at hloc
    | amazonS3 a b c d e =>
      simp [partial_upload, hcond, hdl]
    | googleDrive a b c d e f g =>
      simp [partial_upload, hcond, hdl]

/-- C7 witness: with a well-formed final chunk, a Local destination that
already exists fails InvalidArgumentError with only the error log emitted,
and an S3 destination that already exists warns and proceeds (here to the
no-op S3 arm). -/
theorem overwrite_policy_after_precheck_witness :
    partial_upload (.localFile "p" false (some 5) 1 1) ⟨[0], 0, true⟩ st0 io_trivial =
      (.err (.InvalidArgumentError "The same name file is already exist. Please rename it."), st0,
        [.errorLog "The same name file is already exist. Please rename it."])
    ∧ partial_upload (.amazonS3 4 "bkt" "key" (some 5) 1) ⟨[0], 0, true⟩ st0 io_trivial =
      (.ok (), st0,
        [.warnLog "The same name file is already exist. Please caution."]) := by
  constructor
  · exact (overwrite_policy_after_precheck (.localFile "p" false (some 5) 1 1)
      ⟨[0], 0, true⟩ st0 io_trivial rfl (Or.inl rfl)).1 rfl
  · have h := (overwrite_policy_after_precheck (.amazonS3 4 "bkt" "key" (some 5) 1)
      ⟨[0], 0, true⟩ st0 io_trivial rfl (Or.inl rfl)).2 rfl
    rw [h]
    rfl

/-- C8 counterexample: set_chunk_size on a built object assigns the
requested value unconditionally, so requesting 0 puts the object in a state
with chunk_size = 0, violating the claimed invariant. -/
theorem set_chunk_size_zero_counterexample :
    FileSystemObject.chunk_size
      (set_chunk_size (.localFile "p" false none 1 default_chunk_size) 0) = 0
    ∧ ¬ (0 < FileSystemObject.chunk_size
      (set_chunk_size (.localFile "p" false none 1 default_chunk_size) 0)) := by
  decide

/-- C8 amended: the builder defaults chunk_size to 8 MiB and its setter
ignores a requested 0 with a warning while accepting any nonzero request,
but the invariant chunk_size > 0 is not preserved by every public
operation: set_chunk_size on a built object assigns any requested value,
including 0, unconditionally. -/
theorem chunk_size_default_and_setters :
    default_chunk_size = 8 * 1024 * 1024
    ∧ (∀ cur, builder_set_chunk_size cur 0 =
        (cur, [Effect.warnLog "Chunk size specified as 0. This will be ignored."]))
    ∧ (∀ cur req, req ≠ 0 → builder_set_chunk_size cur req = (req, []))
    ∧ (∀ fso s, FileSystemObject.chunk_size (set_chunk_size fso s) = s) := by
  refine ⟨rfl, fun cur => rfl, fun cur req h => by simp [builder_set_chunk_size, h], ?_⟩
  intro fso s
  cases fso <;> rfl

/-- C8 witness: the setter behaviour at concrete values 0 and 5, and
set_chunk_size driving a built object to chunk_size 0. -/
theorem chunk_size_default_and_setters_witness :
    builder_set_chunk_size default_chunk_size 0 =
      (default_chunk_size, [Effect.warnLog "Chunk size specified as 0. This will be ignored."])
    ∧ builder_set_chunk_size default_chunk_size 5 = (5, [])
    ∧ FileSystemObject.chunk_size (set_chunk_size (.localFile "p" false none 1 8) 0) = 0 :=
  ⟨chunk_size_default_and_setters.2.1 default_chunk_size,
    chunk_size_default_and_setters.2.2.1 default_chunk_size 5 (by decide),
    chunk_size_default_and_setters.2.2.2 (.localFile "p" false none 1 8) 0⟩

/-- C9: the public Upload::upload entry point is the todo macro: for every
object and every queued chunk sequence it panics unconditionally, consumes
no ChunkData and issues no backend write effect. -/
theorem upload_entry_always_panics (fso : FileSystemObject) (received : List ChunkData) :
    upload fso received = (.panicked "not yet implemented", [], []) := rfl

/-- C10 counterexample: a downloadable object whose chunk_size is 0 (such a
state is reachable through the public set_chunk_size) makes download panic
on the chunk-count division instead of returning Ok. -/
theorem download_zero_chunk_size_counterexample :
    download (.localFile "p" false (some 1) 1 0) (fun _ => .ok ()) =
      (.panicked "attempt to divide by zero", [])
    ∧ (download (.localFile "p" false (some 1) 1 0) (fun _ => .ok ())).1 ≠ .ok () := by
  decide

/-- C10 amended: for every downloadable object (file_size = Some n) whose
chunk_size is positive, download returns Ok immediately after spawning one
task per chunk, for every possible assignment of chunk-task outcomes: the
join handles are dropped and no task error reaches the caller. -/
theorem download_returns_ok_ignoring_task_outcomes (fso : FileSystemObject)
    (n : Nat) (hs : fso.file_size = some n) (hc : 0 < fso.chunk_size)
    (taskResults : Nat → RunResult Unit) :
    download fso taskResults =
      (.ok (), List.range ((n + fso.chunk_size - 1) / fso.chunk_size)) := by
  have hdl := is_downloadable_of_file_size hs
  have hcz : ¬ fso.chunk_size = 0 := by omega
  simp [download, hdl, hcz, hs]

/-- C10 witness: a 10-byte local source with chunk_size 4 spawns tasks for
chunks 0, 1, 2 and returns Ok regardless of the task outcomes. -/
theorem download_returns_ok_ignoring_task_outcomes_witness :
    FileSystemObject.file_size (.localFile "p" false (some 10) 1 4) = some 10
    ∧ 0 < FileSystemObject.chunk_size (.localFile "p" false (some 10) 1 4)
    ∧ download (.localFile "p" false (some 10) 1 4) (fun _ => .err (.UnknownError "task failed")) =
      (.ok (), List.range 3) :=
  ⟨rfl, by decide,
    download_returns_ok_ignoring_task_outcomes (.localFile "p" false (some 10) 1 4)
      10 rfl (by decide) (fun _ => .err (.UnknownError "task failed"))⟩

end Hikyaku
